import Mathlib

set_option maxHeartbeats 1000000
set_option maxRecDepth 100000

/-!
A shallow embedding of `src/source/btdu_ncurses_importc.c`: an ImportC shim
that re-exports ncurses macro constants as members of one anonymous C enum,
after setting a few feature-test macros and including `<ncurses.h>`.

The translation unit is modelled directive by directive; enum-member
initializers are modelled as references into a macro environment (the
integer values the included library headers assign to object-like macros),
with the function-key numbering macro `KEY_F(n)` evaluated per its ncurses
definition `(KEY_F0+(n))`.
-/

/-- An enum-member initializer expression as it appears in the shim: either
a plain reference to an ncurses object-like macro, or the function-key
numbering macro `KEY_F(n)`. -/
inductive CExpr where
  | ref (s : String)
  | keyF (n : Nat)
deriving DecidableEq

/-- The original ncurses macro name an initializer refers to, rendered as
text, with `KEY_F(n)` rendered as `KEY_Fn` (the naming the shim uses for
its function-key members). -/
def CExpr.origName : CExpr → String
  | .ref s => s
  | .keyF n => "KEY_F" ++ toString n

/-- The single macro name whose header value an initializer reads:
`KEY_F(n)` expands to `(KEY_F0+(n))`, so it reads `KEY_F0`. -/
def CExpr.refName : CExpr → String
  | .ref s => s
  | .keyF _ => "KEY_F0"

/-- Evaluate an initializer under a macro environment `env` (the integer
value, if any, the included headers give each object-like macro).
`KEY_F(n)` evaluates per its ncurses definition to `KEY_F0 + n`. -/
def evalCExpr (env : String → Option Int) : CExpr → Option Int
  | .ref s => env s
  | .keyF n => (env "KEY_F0").map (fun v => v + (n : Int))

/-- The anonymous enum of the shim (`btdu_ncurses_importc.c` lines 19-150):
each member pairs the exported name with its initializer expression,
in source order. -/
def shimEnum : List (String × CExpr) :=
  [("_NC_A_NORMAL", CExpr.ref "A_NORMAL"),
   ("_NC_A_STANDOUT", CExpr.ref "A_STANDOUT"),
   ("_NC_A_UNDERLINE", CExpr.ref "A_UNDERLINE"),
   ("_NC_A_REVERSE", CExpr.ref "A_REVERSE"),
   ("_NC_A_BLINK", CExpr.ref "A_BLINK"),
   ("_NC_A_DIM", CExpr.ref "A_DIM"),
   ("_NC_A_BOLD", CExpr.ref "A_BOLD"),
   ("_NC_A_ALTCHARSET", CExpr.ref "A_ALTCHARSET"),
   ("_NC_A_INVIS", CExpr.ref "A_INVIS"),
   ("_NC_A_PROTECT", CExpr.ref "A_PROTECT"),
   ("_NC_A_HORIZONTAL", CExpr.ref "A_HORIZONTAL"),
   ("_NC_A_LEFT", CExpr.ref "A_LEFT"),
   ("_NC_A_LOW", CExpr.ref "A_LOW"),
   ("_NC_A_RIGHT", CExpr.ref "A_RIGHT"),
   ("_NC_A_TOP", CExpr.ref "A_TOP"),
   ("_NC_A_VERTICAL", CExpr.ref "A_VERTICAL"),
   ("_NC_A_ITALIC", CExpr.ref "A_ITALIC"),
   ("_NC_OK", CExpr.ref "OK"),
   ("_NC_ERR", CExpr.ref "ERR"),
   ("_NC_CCHARW_MAX", CExpr.ref "CCHARW_MAX"),
   ("_NC_KEY_DOWN", CExpr.ref "KEY_DOWN"),
   ("_NC_KEY_UP", CExpr.ref "KEY_UP"),
   ("_NC_KEY_LEFT", CExpr.ref "KEY_LEFT"),
   ("_NC_KEY_RIGHT", CExpr.ref "KEY_RIGHT"),
   ("_NC_KEY_HOME", CExpr.ref "KEY_HOME"),
   ("_NC_KEY_BACKSPACE", CExpr.ref "KEY_BACKSPACE"),
   ("_NC_KEY_DL", CExpr.ref "KEY_DL"),
   ("_NC_KEY_IL", CExpr.ref "KEY_IL"),
   ("_NC_KEY_DC", CExpr.ref "KEY_DC"),
   ("_NC_KEY_IC", CExpr.ref "KEY_IC"),
   ("_NC_KEY_EIC", CExpr.ref "KEY_EIC"),
   ("_NC_KEY_CLEAR", CExpr.ref "KEY_CLEAR"),
   ("_NC_KEY_EOS", CExpr.ref "KEY_EOS"),
   ("_NC_KEY_EOL", CExpr.ref "KEY_EOL"),
   ("_NC_KEY_SF", CExpr.ref "KEY_SF"),
   ("_NC_KEY_SR", CExpr.ref "KEY_SR"),
   ("_NC_KEY_NPAGE", CExpr.ref "KEY_NPAGE"),
   ("_NC_KEY_PPAGE", CExpr.ref "KEY_PPAGE"),
   ("_NC_KEY_STAB", CExpr.ref "KEY_STAB"),
   ("_NC_KEY_CTAB", CExpr.ref "KEY_CTAB"),
   ("_NC_KEY_CATAB", CExpr.ref "KEY_CATAB"),
   ("_NC_KEY_ENTER", CExpr.ref "KEY_ENTER"),
   ("_NC_KEY_PRINT", CExpr.ref "KEY_PRINT"),
   ("_NC_KEY_LL", CExpr.ref "KEY_LL"),
   ("_NC_KEY_A1", CExpr.ref "KEY_A1"),
   ("_NC_KEY_A3", CExpr.ref "KEY_A3"),
   ("_NC_KEY_B2", CExpr.ref "KEY_B2"),
   ("_NC_KEY_C1", CExpr.ref "KEY_C1"),
   ("_NC_KEY_C3", CExpr.ref "KEY_C3"),
   ("_NC_KEY_BTAB", CExpr.ref "KEY_BTAB"),
   ("_NC_KEY_BEG", CExpr.ref "KEY_BEG"),
   ("_NC_KEY_CANCEL", CExpr.ref "KEY_CANCEL"),
   ("_NC_KEY_CLOSE", CExpr.ref "KEY_CLOSE"),
   ("_NC_KEY_COMMAND", CExpr.ref "KEY_COMMAND"),
   ("_NC_KEY_COPY", CExpr.ref "KEY_COPY"),
   ("_NC_KEY_CREATE", CExpr.ref "KEY_CREATE"),
   ("_NC_KEY_END", CExpr.ref "KEY_END"),
   ("_NC_KEY_EXIT", CExpr.ref "KEY_EXIT"),
   ("_NC_KEY_FIND", CExpr.ref "KEY_FIND"),
   ("_NC_KEY_HELP", CExpr.ref "KEY_HELP"),
   ("_NC_KEY_MARK", CExpr.ref "KEY_MARK"),
   ("_NC_KEY_MESSAGE", CExpr.ref "KEY_MESSAGE"),
   ("_NC_KEY_MOVE", CExpr.ref "KEY_MOVE"),
   ("_NC_KEY_NEXT", CExpr.ref "KEY_NEXT"),
   ("_NC_KEY_OPEN", CExpr.ref "KEY_OPEN"),
   ("_NC_KEY_OPTIONS", CExpr.ref "KEY_OPTIONS"),
   ("_NC_KEY_PREVIOUS", CExpr.ref "KEY_PREVIOUS"),
   ("_NC_KEY_REDO", CExpr.ref "KEY_REDO"),
   ("_NC_KEY_REFERENCE", CExpr.ref "KEY_REFERENCE"),
   ("_NC_KEY_REFRESH", CExpr.ref "KEY_REFRESH"),
   ("_NC_KEY_REPLACE", CExpr.ref "KEY_REPLACE"),
   ("_NC_KEY_RESTART", CExpr.ref "KEY_RESTART"),
   ("_NC_KEY_RESUME", CExpr.ref "KEY_RESUME"),
   ("_NC_KEY_SAVE", CExpr.ref "KEY_SAVE"),
   ("_NC_KEY_SUSPEND", CExpr.ref "KEY_SUSPEND"),
   ("_NC_KEY_UNDO", CExpr.ref "KEY_UNDO"),
   ("_NC_KEY_MOUSE", CExpr.ref "KEY_MOUSE"),
   ("_NC_KEY_SBEG", CExpr.ref "KEY_SBEG"),
   ("_NC_KEY_SCANCEL", CExpr.ref "KEY_SCANCEL"),
   ("_NC_KEY_SCOMMAND", CExpr.ref "KEY_SCOMMAND"),
   ("_NC_KEY_SCOPY", CExpr.ref "KEY_SCOPY"),
   ("_NC_KEY_SCREATE", CExpr.ref "KEY_SCREATE"),
   ("_NC_KEY_SDC", CExpr.ref "KEY_SDC"),
   ("_NC_KEY_SDL", CExpr.ref "KEY_SDL"),
   ("_NC_KEY_SELECT", CExpr.ref "KEY_SELECT"),
   ("_NC_KEY_SEND", CExpr.ref "KEY_SEND"),
   ("_NC_KEY_SEOL", CExpr.ref "KEY_SEOL"),
   ("_NC_KEY_SEXIT", CExpr.ref "KEY_SEXIT"),
   ("_NC_KEY_SFIND", CExpr.ref "KEY_SFIND"),
   ("_NC_KEY_SHELP", CExpr.ref "KEY_SHELP"),
   ("_NC_KEY_SHOME", CExpr.ref "KEY_SHOME"),
   ("_NC_KEY_SIC", CExpr.ref "KEY_SIC"),
   ("_NC_KEY_SLEFT", CExpr.ref "KEY_SLEFT"),
   ("_NC_KEY_SMESSAGE", CExpr.ref "KEY_SMESSAGE"),
   ("_NC_KEY_SMOVE", CExpr.ref "KEY_SMOVE"),
   ("_NC_KEY_SNEXT", CExpr.ref "KEY_SNEXT"),
   ("_NC_KEY_SOPTIONS", CExpr.ref "KEY_SOPTIONS"),
   ("_NC_KEY_SPREVIOUS", CExpr.ref "KEY_SPREVIOUS"),
   ("_NC_KEY_SPRINT", CExpr.ref "KEY_SPRINT"),
   ("_NC_KEY_SREDO", CExpr.ref "KEY_SREDO"),
   ("_NC_KEY_SREPLACE", CExpr.ref "KEY_SREPLACE"),
   ("_NC_KEY_SRIGHT", CExpr.ref "KEY_SRIGHT"),
   ("_NC_KEY_SRSUME", CExpr.ref "KEY_SRSUME"),
   ("_NC_KEY_SSAVE", CExpr.ref "KEY_SSAVE"),
   ("_NC_KEY_SSUSPEND", CExpr.ref "KEY_SSUSPEND"),
   ("_NC_KEY_SUNDO", CExpr.ref "KEY_SUNDO"),
   ("_NC_KEY_F0", CExpr.keyF 0),
   ("_NC_KEY_F1", CExpr.keyF 1),
   ("_NC_KEY_F2", CExpr.keyF 2),
   ("_NC_KEY_F3", CExpr.keyF 3),
   ("_NC_KEY_F4", CExpr.keyF 4),
   ("_NC_KEY_F5", CExpr.keyF 5),
   ("_NC_KEY_F6", CExpr.keyF 6),
   ("_NC_KEY_F7", CExpr.keyF 7),
   ("_NC_KEY_F8", CExpr.keyF 8),
   ("_NC_KEY_F9", CExpr.keyF 9),
   ("_NC_KEY_F10", CExpr.keyF 10),
   ("_NC_KEY_F11", CExpr.keyF 11),
   ("_NC_KEY_F12", CExpr.keyF 12)]

/-- A preprocessing-level directive of the shim's translation unit. -/
inductive Directive where
  | define (name : String) (value : Int)
  | undef (name : String)
  | includeHdr (path : String)
  | enumDecl (members : List (String × CExpr))

/-- True for a header-inclusion directive. -/
def Directive.isInclude : Directive → Bool
  | .includeHdr _ => true
  | _ => false

/-- True when the directive defines the given macro name. -/
def Directive.definesName (n : String) : Directive → Bool
  | .define m _ => m == n
  | _ => false

/-- The shim's translation unit, directive by directive
(`btdu_ncurses_importc.c` lines 10-150): define `__NO_INLINE__` to 1,
undefine and redefine `_FORTIFY_SOURCE` to 0, define
`_XOPEN_SOURCE_EXTENDED` to 1, include `<ncurses.h>`, then declare the
anonymous enum. -/
def shimUnit : List Directive :=
  [Directive.define "__NO_INLINE__" 1,
   Directive.undef "_FORTIFY_SOURCE",
   Directive.define "_FORTIFY_SOURCE" 0,
   Directive.define "_XOPEN_SOURCE_EXTENDED" 1,
   Directive.includeHdr "ncurses.h",
   Directive.enumDecl shimEnum]

/-- The header paths the translation unit includes, in order. -/
def includedHeaders : List String :=
  shimUnit.filterMap (fun d => match d with
    | Directive.includeHdr p => some p
    | _ => none)

/-- Compile the shim against a header-availability predicate `avail` and a
macro environment `env`: compilation fails (`none`) when an included header
path does not resolve in the include search path; otherwise it yields the
exported constant table (no values are invented on failure). -/
def compileShim (avail : String → Bool) (env : String → Option Int) :
    Option (List (String × Option Int)) :=
  if includedHeaders.all avail then
    some (shimEnum.map (fun p => (p.1, evalCExpr env p.2)))
  else
    none

/-- The value the shim exports under a given exported name, under macro
environment `env`. -/
def exportValue (env : String → Option Int) (n : String) : Option Int :=
  (shimEnum.lookup n).bind (evalCExpr env)

/-- Macro names whose header values the enum initializers read. -/
def referencedNames : List String := shimEnum.map (fun p => p.2.refName)

/-- Values of the referenced ncurses object-like macros on a standard
ncurses 6 installation, as the installed `curses.h` defines them under the
shim's feature-test macros (`OK = 0`, `ERR = -1`, `CCHARW_MAX = 5`,
`KEY_F0 = 0410`, attribute bits `NCURSES_BITS(1, shift)`). -/
def stdNcursesVals : List (String × Int) :=
  [("A_NORMAL", 0),
   ("A_STANDOUT", 65536),
   ("A_UNDERLINE", 131072),
   ("A_REVERSE", 262144),
   ("A_BLINK", 524288),
   ("A_DIM", 1048576),
   ("A_BOLD", 2097152),
   ("A_ALTCHARSET", 4194304),
   ("A_INVIS", 8388608),
   ("A_PROTECT", 16777216),
   ("A_HORIZONTAL", 33554432),
   ("A_LEFT", 67108864),
   ("A_LOW", 134217728),
   ("A_RIGHT", 268435456),
   ("A_TOP", 536870912),
   ("A_VERTICAL", 1073741824),
   ("A_ITALIC", 2147483648),
   ("OK", 0),
   ("ERR", -1),
   ("CCHARW_MAX", 5),
   ("KEY_DOWN", 258),
   ("KEY_UP", 259),
   ("KEY_LEFT", 260),
   ("KEY_RIGHT", 261),
   ("KEY_HOME", 262),
   ("KEY_BACKSPACE", 263),
   ("KEY_DL", 328),
   ("KEY_IL", 329),
   ("KEY_DC", 330),
   ("KEY_IC", 331),
   ("KEY_EIC", 332),
   ("KEY_CLEAR", 333),
   ("KEY_EOS", 334),
   ("KEY_EOL", 335),
   ("KEY_SF", 336),
   ("KEY_SR", 337),
   ("KEY_NPAGE", 338),
   ("KEY_PPAGE", 339),
   ("KEY_STAB", 340),
   ("KEY_CTAB", 341),
   ("KEY_CATAB", 342),
   ("KEY_ENTER", 343),
   ("KEY_PRINT", 346),
   ("KEY_LL", 347),
   ("KEY_A1", 348),
   ("KEY_A3", 349),
   ("KEY_B2", 350),
   ("KEY_C1", 351),
   ("KEY_C3", 352),
   ("KEY_BTAB", 353),
   ("KEY_BEG", 354),
   ("KEY_CANCEL", 355),
   ("KEY_CLOSE", 356),
   ("KEY_COMMAND", 357),
   ("KEY_COPY", 358),
   ("KEY_CREATE", 359),
   ("KEY_END", 360),
   ("KEY_EXIT", 361),
   ("KEY_FIND", 362),
   ("KEY_HELP", 363),
   ("KEY_MARK", 364),
   ("KEY_MESSAGE", 365),
   ("KEY_MOVE", 366),
   ("KEY_NEXT", 367),
   ("KEY_OPEN", 368),
   ("KEY_OPTIONS", 369),
   ("KEY_PREVIOUS", 370),
   ("KEY_REDO", 371),
   ("KEY_REFERENCE", 372),
   ("KEY_REFRESH", 373),
   ("KEY_REPLACE", 374),
   ("KEY_RESTART", 375),
   ("KEY_RESUME", 376),
   ("KEY_SAVE", 377),
   ("KEY_SUSPEND", 407),
   ("KEY_UNDO", 408),
   ("KEY_MOUSE", 409),
   ("KEY_SBEG", 378),
   ("KEY_SCANCEL", 379),
   ("KEY_SCOMMAND", 380),
   ("KEY_SCOPY", 381),
   ("KEY_SCREATE", 382),
   ("KEY_SDC", 383),
   ("KEY_SDL", 384),
   ("KEY_SELECT", 385),
   ("KEY_SEND", 386),
   ("KEY_SEOL", 387),
   ("KEY_SEXIT", 388),
   ("KEY_SFIND", 389),
   ("KEY_SHELP", 390),
   ("KEY_SHOME", 391),
   ("KEY_SIC", 392),
   ("KEY_SLEFT", 393),
   ("KEY_SMESSAGE", 394),
   ("KEY_SMOVE", 395),
   ("KEY_SNEXT", 396),
   ("KEY_SOPTIONS", 397),
   ("KEY_SPREVIOUS", 398),
   ("KEY_SPRINT", 399),
   ("KEY_SREDO", 400),
   ("KEY_SREPLACE", 401),
   ("KEY_SRIGHT", 402),
   ("KEY_SRSUME", 403),
   ("KEY_SSAVE", 404),
   ("KEY_SSUSPEND", 405),
   ("KEY_SUNDO", 406),
   ("KEY_F0", 264)]

/-- The macro environment of a standard ncurses installation. -/
def stdNcursesEnv (s : String) : Option Int := stdNcursesVals.lookup s

/-- A header-availability predicate under which only the wide-character
header path resolves and the plain path does not. -/
def availWideOnly : String → Bool := fun p => p == "ncursesw/ncurses.h"

/-- The attribute/style flag family claim C2 lists, under the shim's
naming scheme (directional/box-drawing flags are the horizontal, left,
low, right, top and vertical bits). -/
def c2AttrFlags : List String :=
  ["_NC_A_NORMAL", "_NC_A_STANDOUT", "_NC_A_UNDERLINE", "_NC_A_REVERSE",
   "_NC_A_BLINK", "_NC_A_DIM", "_NC_A_BOLD", "_NC_A_ALTCHARSET",
   "_NC_A_INVIS", "_NC_A_PROTECT", "_NC_A_HORIZONTAL", "_NC_A_LEFT",
   "_NC_A_LOW", "_NC_A_RIGHT", "_NC_A_TOP", "_NC_A_VERTICAL",
   "_NC_A_ITALIC"]

/-- Representative named members of the special-input-key family that
claim C2 calls out: navigation, editing (insert/delete line and
character), paging, and shifted variants. -/
def c2NamedKeys : List String :=
  ["_NC_KEY_DOWN", "_NC_KEY_UP", "_NC_KEY_LEFT", "_NC_KEY_RIGHT",
   "_NC_KEY_HOME", "_NC_KEY_END", "_NC_KEY_IL", "_NC_KEY_DL",
   "_NC_KEY_IC", "_NC_KEY_DC", "_NC_KEY_NPAGE", "_NC_KEY_PPAGE",
   "_NC_KEY_SLEFT", "_NC_KEY_SHOME"]

/-- Membership in the constant families claim C2 lists: the attribute
flags, the special-input-key codes (all exported under the `_NC_KEY_`
prefix, function keys included), and the combined-character limit. -/
def c2InFamilies (n : String) : Bool :=
  c2AttrFlags.contains n || n.take 8 == "_NC_KEY_" || n == "_NC_CCHARW_MAX"

/-- Modelled from the spec: the accessor-wrapper part of the shim is not
under `src/` (only the enum shim is); the spec describes a library state
whose default output destination handle (`stdscr`) certain reentrant
builds hide behind a function-call-expanding macro. -/
structure NcursesLib where
  stdscrHandle : Int

/-- Modelled from the spec: the shim's zero-argument accessor function
returning the library's default output destination handle. -/
def btdu_stdscr (lib : NcursesLib) : Int := lib.stdscrHandle

/-- Modelled from the spec: directly referencing the library's default
output target from ordinary library-consuming code (the macro resolves to
the same handle held by the library state). -/
def directStdscrRef (lib : NcursesLib) : Int := lib.stdscrHandle

/-- Looking up a key in an association list with pairwise-distinct keys
finds the associated value of any member pair. -/
theorem lookup_eq_of_mem_of_nodup {α β : Type} [BEq α] [LawfulBEq α]
    {l : List (α × β)} {a : α} {b : β}
    (hn : (l.map Prod.fst).Nodup) (hm : (a, b) ∈ l) :
    l.lookup a = some b := by
  induction l with
  | nil => cases hm
  | cons p t ih =>
    obtain ⟨k, v⟩ := p
    rw [List.map_cons, List.nodup_cons] at hn
    rcases List.mem_cons.mp hm with h1 | h1
    · injection h1 with hk hv
      subst hk
      subst hv
      simp [List.lookup]
    · have hne : (a == k) = false := by
        rcases Bool.eq_false_or_eq_true (a == k) with ht | hf
        · exfalso
          have hak : a = k := eq_of_beq ht
          subst hak
          exact hn.1 (List.mem_map.mpr ⟨(a, b), h1, rfl⟩)
        · exact hf
      rw [List.lookup, hne]
      exact ih hn.2 h1

/-- Pointwise-equal predicates give equal `List.all` results. -/
theorem list_all_congr {α : Type} {l : List α} {f g : α → Bool}
    (h : ∀ a ∈ l, f a = g a) : l.all f = l.all g := by
  induction l with
  | nil => rfl
  | cons x t ih =>
    simp only [List.all_cons]
    rw [h x (List.mem_cons_self x t), ih (fun a ha => h a (List.mem_cons_of_mem x ha))]

/-- Pointwise-equal functions give equal `List.map` results. -/
theorem list_map_congr {α β : Type} {l : List α} {f g : α → β}
    (h : ∀ a ∈ l, f a = g a) : l.map f = l.map g := by
  induction l with
  | nil => rfl
  | cons x t ih =>
    simp only [List.map_cons]
    rw [h x (List.mem_cons_self x t), ih (fun a ha => h a (List.mem_cons_of_mem x ha))]

/-- An initializer's value depends on the environment only through the one
macro name it reads. -/
theorem evalCExpr_congr {env1 env2 : String → Option Int} (e : CExpr)
    (h : env1 e.refName = env2 e.refName) :
    evalCExpr env1 e = evalCExpr env2 e := by
  cases e with
  | ref s =>
    simp only [CExpr.refName] at h
    simp only [evalCExpr, h]
  | keyF n =>
    simp only [CExpr.refName] at h
    simp only [evalCExpr, h]

/-- The exported names of the shim enum are pairwise distinct. -/
theorem shimKeysNodup : (shimEnum.map Prod.fst).Nodup := by decide

/-- Every shim enum member's exported name is the `_NC_` prefix followed by
the referenced macro's rendered name. -/
theorem shim_names_prefixed : ∀ p ∈ shimEnum, p.1 = "_NC_" ++ p.2.origName := by decide

/-- The shim includes exactly the plain header path. -/
theorem includedHeaders_eq : includedHeaders = ["ncurses.h"] := by decide

/-- The shim enum maps each function-key name `_NC_KEY_Fn` to the
initializer `KEY_F(n)`, for n from 0 to 12. -/
theorem lookup_fkey :
    ∀ n : Fin 13, shimEnum.lookup ("_NC_KEY_F" ++ toString n.val) = some (CExpr.keyF n.val) := by
  decide

/-- C1: round-trip — for every exported name of the shim enum, the exported
value under any macro environment equals the value of the corresponding
original library macro (the member's initializer) under that same
environment, and the exported name determines that macro (it is `_NC_`
followed by the macro's rendered name). -/
theorem c1_export_roundtrip (env : String → Option Int) (n : String) (e : CExpr)
    (hm : (n, e) ∈ shimEnum) :
    exportValue env n = evalCExpr env e ∧ n = "_NC_" ++ e.origName := by
  constructor
  · unfold exportValue
    rw [lookup_eq_of_mem_of_nodup shimKeysNodup hm]
    rfl
  · exact shim_names_prefixed (n, e) hm

/-- Witness for C1 at the concrete member `_NC_A_STANDOUT = A_STANDOUT`
under the standard-installation environment. -/
theorem c1_export_roundtrip_witness :
    exportValue stdNcursesEnv "_NC_A_STANDOUT" = evalCExpr stdNcursesEnv (CExpr.ref "A_STANDOUT")
    ∧ "_NC_A_STANDOUT" = "_NC_" ++ (CExpr.ref "A_STANDOUT").origName :=
  c1_export_roundtrip stdNcursesEnv "_NC_A_STANDOUT" (CExpr.ref "A_STANDOUT") (by decide)

/-- C2 counterexample: the shim also exports the status-code constant
`_NC_OK` (aliasing `OK`), which lies in none of the constant families the
claim lists (attribute flags, special-input-key codes, combined-character
limit) — so the export set is not exactly those families. -/
theorem c2_counterexample :
    shimEnum.lookup "_NC_OK" = some (CExpr.ref "OK")
    ∧ c2InFamilies "_NC_OK" = false := by decide

/-- C2 amended: the shim exports exactly the listed families plus the two
status-code constants: every export is an attribute flag from the listed
family, a `_NC_KEY_`-prefixed special-input-key code, the
combined-character limit, or one of `_NC_OK`/`_NC_ERR`; all listed
attribute flags, the called-out navigation/editing/paging/shifted keys,
function keys F0 through F12 and the limit are exported; and each export
is the `_NC_`-prefixed alias of its original macro. -/
theorem c2_export_families :
    (∀ p ∈ shimEnum, c2InFamilies p.1 = true ∨ p.1 = "_NC_OK" ∨ p.1 = "_NC_ERR")
    ∧ (∀ a ∈ c2AttrFlags, a ∈ shimEnum.map Prod.fst)
    ∧ (∀ k ∈ c2NamedKeys, k ∈ shimEnum.map Prod.fst)
    ∧ (∀ n : Fin 13, ("_NC_KEY_F" ++ toString n.val) ∈ shimEnum.map Prod.fst)
    ∧ "_NC_CCHARW_MAX" ∈ shimEnum.map Prod.fst
    ∧ (∀ p ∈ shimEnum, p.1 = "_NC_" ++ p.2.origName) := by decide

/-- C3: on a standard library installation the exported success status
constant `_NC_OK` evaluates to 0 and the exported error status constant
`_NC_ERR` evaluates to -1. -/
theorem c3_status_values :
    exportValue stdNcursesEnv "_NC_OK" = some 0
    ∧ exportValue stdNcursesEnv "_NC_ERR" = some (-1) := by decide

/-- C4: for every n from 0 to 12, the exported constant `_NC_KEY_Fn` equals
the library's function-key numbering macro `KEY_F(n)` under any
environment, and that macro evaluates to the function-key base `KEY_F0`
plus n — so F1 is one step above the base and consecutive F constants
differ by exactly one step. -/
theorem c4_function_keys (env : String → Option Int) (n : Fin 13) :
    exportValue env ("_NC_KEY_F" ++ toString n.val) = evalCExpr env (CExpr.keyF n.val)
    ∧ evalCExpr env (CExpr.keyF n.val) = (env "KEY_F0").map (fun v => v + (n.val : Int)) := by
  constructor
  · unfold exportValue
    rw [lookup_fkey n]
    rfl
  · rfl

/-- C5 counterexample: the shim's include set is exactly the plain header
`ncurses.h` — the wide-character path `ncursesw/ncurses.h` is never
included, even under an availability predicate making every header (the
wide variant included) present, although the shim does compile there. -/
theorem c5_counterexample :
    includedHeaders.contains "ncursesw/ncurses.h" = false
    ∧ includedHeaders.contains "ncurses.h" = true
    ∧ (compileShim (fun _ => true) stdNcursesEnv).isSome = true := by decide

/-- C5 amended: the shim unconditionally includes only the plain header
path `ncurses.h`, never preferring a wide-character variant; it compiles
exactly when the plain header resolves — in particular it still compiles
when only the plain header is available. -/
theorem c5_plain_header_only (avail : String → Bool) (env : String → Option Int) :
    includedHeaders = ["ncurses.h"]
    ∧ ((compileShim avail env).isSome = true ↔ avail "ncurses.h" = true) := by
  refine ⟨includedHeaders_eq, ?_⟩
  unfold compileShim
  rw [includedHeaders_eq]
  cases h : avail "ncurses.h" <;> simp [List.all_cons, List.all_nil, h]

/-- C6 counterexample: under an availability predicate where the
wide-character header path resolves but the plain path does not, the shim
fails to compile — an error condition outside the claim's "neither path
resolves" condition, so that is not the only error condition. -/
theorem c6_counterexample :
    availWideOnly "ncursesw/ncurses.h" = true
    ∧ availWideOnly "ncurses.h" = false
    ∧ compileShim availWideOnly stdNcursesEnv = none := by decide

/-- C6 amended: the shim fails at build time exactly when the plain header
path `ncurses.h` does not resolve (in particular when neither the wide
nor the plain path resolves), and on failure produces no export table —
no stub values are substituted; availability of the wide-character path is
never consulted. -/
theorem c6_missing_header_failure (avail : String → Bool) (env : String → Option Int) :
    compileShim avail env = none ↔ avail "ncurses.h" = false := by
  unfold compileShim
  rw [includedHeaders_eq]
  cases h : avail "ncurses.h" <;> simp [List.all_cons, List.all_nil, h]

/-- C7: the zero-argument accessor returns the library's default output
destination handle — the same handle value as directly referencing the
default output target, for every library state. -/
theorem c7_accessor_consistent (lib : NcursesLib) :
    btdu_stdscr lib = directStdscrRef lib := rfl

/-- C8: in the shim's translation unit, the macro disabling duplicate
inline C-library functions (`__NO_INLINE__`) and the macro disabling
fortified libc variants (`_FORTIFY_SOURCE`, redefined to 0) are both
defined among the directives preceding the first header inclusion, and no
directive from the first inclusion onwards defines either — so no header
inclusion precedes these definitions. -/
theorem c8_hazard_macro_order :
    ((shimUnit.takeWhile (fun d => !(d.isInclude))).any
        (fun d => d.definesName "__NO_INLINE__")) = true
    ∧ ((shimUnit.takeWhile (fun d => !(d.isInclude))).any
        (fun d => d.definesName "_FORTIFY_SOURCE")) = true
    ∧ ((shimUnit.dropWhile (fun d => !(d.isInclude))).all
        (fun d => !(d.definesName "__NO_INLINE__") && !(d.definesName "_FORTIFY_SOURCE"))) = true := by
  decide

/-- C9: compilation of the shim is deterministic — two compilations whose
header availability agrees on every included header and whose macro
environments agree on every macro the enum references produce identical
results (in particular, identical exported values). -/
theorem c9_deterministic_export (avail1 avail2 : String → Bool)
    (env1 env2 : String → Option Int)
    (ha : ∀ p ∈ includedHeaders, avail1 p = avail2 p)
    (he : ∀ s ∈ referencedNames, env1 s = env2 s) :
    compileShim avail1 env1 = compileShim avail2 env2 := by
  have h1 : includedHeaders.all avail1 = includedHeaders.all avail2 := list_all_congr ha
  have h2 : shimEnum.map (fun p => (p.1, evalCExpr env1 p.2))
      = shimEnum.map (fun p => (p.1, evalCExpr env2 p.2)) :=
    list_map_congr (fun p hp => by
      rw [evalCExpr_congr p.2 (he p.2.refName (List.mem_map.mpr ⟨p, hp, rfl⟩))])
  unfold compileShim
  rw [h1, h2]

/-- Witness for C9 at a concrete repeated compilation against the
standard-installation environment with all headers available. -/
theorem c9_deterministic_export_witness :
    compileShim (fun _ => true) stdNcursesEnv = compileShim (fun _ => true) stdNcursesEnv :=
  c9_deterministic_export (fun _ => true) (fun _ => true) stdNcursesEnv stdNcursesEnv
    (fun _ _ => rfl) (fun _ _ => rfl)

/-- C10: every exported name is exactly `_NC_` concatenated with the
original macro's rendered name (`KEY_F(n)` rendered as `KEY_Fn`), the
exported names are pairwise distinct, and the corresponding original macro
names are pairwise distinct, so the name-to-macro mapping is injective. -/
theorem c10_name_scheme :
    (∀ p ∈ shimEnum, p.1 = "_NC_" ++ p.2.origName)
    ∧ (shimEnum.map Prod.fst).Nodup
    ∧ (shimEnum.map (fun p => p.2.origName)).Nodup :=
  ⟨shim_names_prefixed, shimKeysNodup, by decide⟩
